import Mathlib

/-!
Shallow embedding of the room timer synchronization engine
(backend socket timer handlers) of the study-room repository.

JavaScript numbers that may be `undefined`, `null` or `NaN` are modelled as
`Option Int` with `none` standing for the non-numeric values (undefined, null
and NaN all behave identically in the arithmetic and truthiness this code
performs: they are falsy, and any arithmetic on them yields NaN).
Timestamps (`Date` values) are modelled as integer milliseconds since epoch;
`new Date()` becomes an explicit `now : Int` parameter threaded into each
handler.  Socket emissions are reified in a `HandlerResult` record: `errorEmit`
is the message sent to the requesting socket only, `broadcastEvent` is the
event name broadcast to the whole room (with the saved timer state as
payload), and `suggestedNextMode` is the extra field of the completion
broadcast payload.
-/

/-- JS short-circuit `a || b` for a possibly-non-numeric number `a`:
`undefined`, `null`, `NaN` (all `none`) and `0` are falsy and yield `b`. -/
def jsOr (a b : Option Int) : Option Int :=
  match a with
  | none => b
  | some v => if v = 0 then b else some v

/-- JS `a || d` where the fallback `d` is a plain number. -/
def jsOrNum (a : Option Int) (d : Int) : Int :=
  match a with
  | none => d
  | some v => if v = 0 then d else v

/-- JS `Math.min(a, b)`: NaN propagates. -/
def jsMin (a b : Option Int) : Option Int :=
  match a, b with
  | some x, some y => some (min x y)
  | _, _ => none

/-- JS `Math.max(a, b)`: NaN propagates. -/
def jsMax (a b : Option Int) : Option Int :=
  match a, b with
  | some x, some y => some (max x y)
  | _, _ => none

/-- JS subtraction `a - b`: NaN propagates. -/
def jsSub (a b : Option Int) : Option Int :=
  match a, b with
  | some x, some y => some (x - y)
  | _, _ => none

/-- The `room.timerState` sub-document. -/
structure TimerState where
  mode : String
  timeRemaining : Option Int
  isRunning : Bool
  startedAt : Option Int
  pausedAt : Option Int
  cycleCount : Int
  deriving Repr, DecidableEq

/-- The optional `room.timerSettings` sub-document (per-mode duration
overrides, each possibly unset). -/
structure TimerSettings where
  focusDuration : Option Int
  shortBreakDuration : Option Int
  longBreakDuration : Option Int
  deriving Repr, DecidableEq

/-- The slice of the Room document the timer handlers read and write.
`host` is the host identity already converted `toString`. -/
structure Room where
  host : String
  timerState : TimerState
  timerSettings : Option TimerSettings
  deriving Repr, DecidableEq

/-- Result of one handler invocation.  `room` is the persisted room after the
call (`none` when lookup failed; unchanged from the input on any error path,
since a handler that returns early never calls `save`).  `errorEmit` is
emitted to the requesting socket only; `broadcastEvent` names the event
broadcast to every member of the room. -/
structure HandlerResult where
  room : Option Room
  errorEmit : Option String
  broadcastEvent : Option String
  suggestedNextMode : Option String
  deriving Repr, DecidableEq

/-- `calculateCurrentTimerState` from the source: reconcile a running timer
state against the observation instant `now`.  The guard
`!timerState.isRunning || !timerState.startedAt` returns the state unchanged;
otherwise elapsed whole seconds are `Math.floor((now - startedAt) / 1000)` and
the remaining time is clamped at 0. -/
def calculateCurrentTimerState (now : Int) (ts : TimerState) : TimerState :=
  match ts.isRunning, ts.startedAt with
  | true, some startedAt =>
      let elapsedSeconds := Int.fdiv (now - startedAt) 1000
      let currentTimeRemaining := jsMax (some 0) (jsSub ts.timeRemaining (some elapsedSeconds))
      { ts with timeRemaining := currentTimeRemaining }
  | _, _ => ts

/-- `isUserHost` from the source: the requester id equals the room host id
(both compared as strings). -/
def isUserHost (room : Room) (userId : String) : Bool :=
  room.host == userId

/-- The `timeByMode` object literal built inside the reset and change-mode
handlers: property lookup on `{ focus, shortBreak, longBreak }`, where each
value is `room.timerSettings?.xDuration || default`.  A key outside the three
properties yields `undefined` (`none`). -/
def timeByMode (room : Room) (m : String) : Option Int :=
  if m = "focus" then
    some (jsOrNum (room.timerSettings.bind TimerSettings.focusDuration) (25 * 60))
  else if m = "shortBreak" then
    some (jsOrNum (room.timerSettings.bind TimerSettings.shortBreakDuration) (5 * 60))
  else if m = "longBreak" then
    some (jsOrNum (room.timerSettings.bind TimerSettings.longBreakDuration) (15 * 60))
  else none

/-- `handleStartTimer`: host-only; sets `isRunning = true` and
`startedAt = new Date()`, leaves every other field alone, saves, and
broadcasts `timer-started`. -/
def handleStartTimer (now : Int) (userId : String) (foundRoom : Option Room) :
    HandlerResult :=
  match foundRoom with
  | none => ⟨none, some "Room not found", none, none⟩
  | some room =>
    if isUserHost room userId then
      let ts := { room.timerState with isRunning := true, startedAt := some now }
      ⟨some { room with timerState := ts }, none, some "timer-started", none⟩
    else
      ⟨some room, some "Only host can control timer", none, none⟩

/-- `handlePauseTimer`: host-only.  `timeRemaining` is the client-suggested
value (`none` when the client sent none).  If the stored timer is running with
a truthy `startedAt`, the persisted value becomes
`Math.max(0, Math.min(timeRemaining || stored, reconciled))`; otherwise it
becomes `Math.max(0, timeRemaining)` — which is NaN when no value was
supplied.  Sets `pausedAt = new Date()`, clears `startedAt`, saves, and
broadcasts `timer-paused`. -/
def handlePauseTimer (now : Int) (userId : String) (timeRemaining : Option Int)
    (foundRoom : Option Room) : HandlerResult :=
  match foundRoom with
  | none => ⟨none, some "Room not found", none, none⟩
  | some room =>
    if isUserHost room userId then
      let currentTimeRemaining :=
        if room.timerState.isRunning && room.timerState.startedAt.isSome then
          let currentTimerState := calculateCurrentTimerState now room.timerState
          jsMin (jsOr timeRemaining room.timerState.timeRemaining)
            currentTimerState.timeRemaining
        else timeRemaining
      let ts := { room.timerState with
        isRunning := false,
        timeRemaining := jsMax (some 0) currentTimeRemaining,
        pausedAt := some now,
        startedAt := none }
      ⟨some { room with timerState := ts }, none, some "timer-paused", none⟩
    else
      ⟨some room, some "Only host can control timer", none, none⟩

/-- `handleResetTimer`: host-only; restores
`timeByMode[room.timerState.mode] || timeByMode.focus` as the remaining time,
stops the timer, clears both timestamps, saves, and broadcasts
`timer-reset`. -/
def handleResetTimer (userId : String) (foundRoom : Option Room) :
    HandlerResult :=
  match foundRoom with
  | none => ⟨none, some "Room not found", none, none⟩
  | some room =>
    if isUserHost room userId then
      let newTime :=
        jsOrNum (timeByMode room room.timerState.mode)
          (jsOrNum (room.timerSettings.bind TimerSettings.focusDuration) (25 * 60))
      let ts := { room.timerState with
        timeRemaining := some newTime,
        isRunning := false,
        startedAt := none,
        pausedAt := none }
      ⟨some { room with timerState := ts }, none, some "timer-reset", none⟩
    else
      ⟨some room, some "Only host can control timer", none, none⟩

/-- The `validModes` array of the change-mode handler. -/
def validModes : List String := ["focus", "shortBreak", "longBreak"]

/-- `handleChangeTimerMode`: host-only; rejects a mode outside `validModes`
with an `Invalid timer mode` error and no mutation.  On a valid mode it
assigns, in source order: `mode`, then `isRunning = false`,
`startedAt = null`, `pausedAt = null`, then `timeRemaining = timeByMode[mode]`,
and finally increments `cycleCount` when
`mode !== 'focus' && room.timerState.mode === 'focus'` — a comparison made
AFTER `room.timerState.mode` has already been overwritten with the requested
mode, faithfully reproduced here by testing the updated state `ts1`. -/
def handleChangeTimerMode (userId : String) (mode : String)
    (foundRoom : Option Room) : HandlerResult :=
  match foundRoom with
  | none => ⟨none, some "Room not found", none, none⟩
  | some room =>
    if isUserHost room userId then
      if validModes.contains mode then
        let ts1 := { room.timerState with
          mode := mode,
          isRunning := false,
          startedAt := none,
          pausedAt := none,
          timeRemaining := timeByMode room mode }
        let ts2 :=
          if mode ≠ "focus" ∧ ts1.mode = "focus" then
            { ts1 with cycleCount := ts1.cycleCount + 1 }
          else ts1
        ⟨some { room with timerState := ts2 }, none, some "timer-mode-changed", none⟩
      else
        ⟨some room, some "Invalid timer mode", none, none⟩
    else
      ⟨some room, some "Only host can control timer", none, none⟩

/-- `handleTimerCompleted`: host-only; stops the timer
(`isRunning = false`, `timeRemaining = 0`, both timestamps cleared), then if
the (unchanged) mode is focus computes the suggestion from the cycle count as
it stands BEFORE the increment — `cycleCount % 4 === 3` picks `longBreak`,
otherwise `shortBreak` — and then increments `cycleCount`; for a break mode it
suggests `focus` and leaves the count alone.  Saves and broadcasts
`timer-completed` with the suggestion in the payload. -/
def handleTimerCompleted (userId : String) (foundRoom : Option Room) :
    HandlerResult :=
  match foundRoom with
  | none => ⟨none, some "Room not found", none, none⟩
  | some room =>
    if isUserHost room userId then
      let ts1 := { room.timerState with
        isRunning := false,
        timeRemaining := some 0,
        startedAt := none,
        pausedAt := none }
      if ts1.mode = "focus" then
        let suggestedNextMode :=
          if Int.tmod ts1.cycleCount 4 = 3 then "longBreak" else "shortBreak"
        let ts2 := { ts1 with cycleCount := ts1.cycleCount + 1 }
        ⟨some { room with timerState := ts2 }, none, some "timer-completed",
          some suggestedNextMode⟩
      else
        ⟨some { room with timerState := ts1 }, none, some "timer-completed",
          some "focus"⟩
    else
      ⟨some room, some "Only host can control timer", none, none⟩

/-! Helper lemmas shared by several claims. -/

/-- On a numeric fallback, the JS truthiness choice collapses to `jsOrNum`. -/
theorem jsOr_some (a : Option Int) (b : Int) : jsOr a (some b) = some (jsOrNum a b) := by
  cases a with
  | none => rfl
  | some v =>
      by_cases hv : v = 0 <;> simp [jsOr, jsOrNum, hv]

/-! Sample rooms used as concrete inputs; each is used by the theorems of a
single claim. -/

/-- A room in focus mode with cycleCount 5, not running, host `h`. -/
def roomC1 : Room := ⟨"h", ⟨"focus", some 1500, false, none, none, 5⟩, none⟩

/-- A running focus-mode room with cycleCount 2, host `h`. -/
def roomC2 : Room := ⟨"h", ⟨"focus", some 0, true, some 0, none, 2⟩, none⟩

/-- C1 (code_bug): the Change Mode handler never increments cycleCount for
any requested mode and any room, because the handler overwrites the stored
mode before comparing it to focus, making the increment condition
unsatisfiable; the spec (and the comment in the source) say a focus-to-break
change increments it by exactly 1.  In particular, for `roomC1` (mode focus,
cycleCount 5), changing mode to shortBreak leaves cycleCount at 5 where the
claim demands 6. -/
theorem changeMode_never_increments_cycleCount (userId mode : String)
    (foundRoom : Option Room) :
    (handleChangeTimerMode userId mode foundRoom).room.map
        (fun r => r.timerState.cycleCount) =
      foundRoom.map (fun r => r.timerState.cycleCount) := by
  cases foundRoom with
  | none => rfl
  | some room =>
      by_cases hhost : isUserHost room userId
      · by_cases hmode : mode ∈ validModes
        · by_cases hfocus : mode = "focus"
          · simp [handleChangeTimerMode, validModes, hhost, hmode, hfocus]
          · simp only [handleChangeTimerMode, hhost, if_true]
            simp [validModes, hhost, hmode, hfocus]
            split <;> simp
        · simp [handleChangeTimerMode, hhost, hmode]
      · simp [handleChangeTimerMode, hhost]

/-- C1 at the failing input: changing mode from focus to shortBreak on
`roomC1` (cycleCount 5) keeps cycleCount at 5, not 6. -/
theorem changeMode_focus_to_break_keeps_cycleCount :
    (handleChangeTimerMode "h" "shortBreak" (some roomC1)).room.map
        (fun r => r.timerState.cycleCount) = some 5 ∧ (5 : Int) ≠ 6 := by
  decide

/-- C2 (counterexample): with pre-call cycleCount 2 and mode focus, Complete
suggests shortBreak (the code tests `cycleCount % 4 === 3` before the
increment, and 2 % 4 is 2), not longBreak as the claim states, although the
cycle count does become 3. -/
theorem completed_cycle2_suggests_shortBreak :
    (handleTimerCompleted "h" (some roomC2)).suggestedNextMode = some "shortBreak" ∧
    (handleTimerCompleted "h" (some roomC2)).room.map
        (fun r => r.timerState.cycleCount) = some 3 ∧
    some "shortBreak" ≠ some "longBreak" := by
  decide

/-- C2 (amended): for a host Complete call, if the mode is focus the
suggestion is longBreak exactly when the PRE-increment cycleCount mod 4
equals 3 (otherwise shortBreak) and the cycle count is then incremented by 1;
if the mode is any non-focus mode the suggestion is focus and the cycle count
is unchanged. -/
theorem completed_suggestion_uses_preincrement_count (userId : String) (room : Room)
    (hhost : isUserHost room userId = true) :
    (room.timerState.mode = "focus" →
      (handleTimerCompleted userId (some room)).suggestedNextMode =
        some (if Int.tmod room.timerState.cycleCount 4 = 3
          then "longBreak" else "shortBreak") ∧
      (handleTimerCompleted userId (some room)).room.map
          (fun r => r.timerState.cycleCount) =
        some (room.timerState.cycleCount + 1)) ∧
    (room.timerState.mode ≠ "focus" →
      (handleTimerCompleted userId (some room)).suggestedNextMode = some "focus" ∧
      (handleTimerCompleted userId (some room)).room.map
          (fun r => r.timerState.cycleCount) = some room.timerState.cycleCount) := by
  constructor <;> intro hm <;> simp [handleTimerCompleted, hhost, hm]

/-- C2 witness: the amended theorem applied to `roomC2` (host call, focus
mode, cycleCount 2). -/
theorem completed_suggestion_witness :
    isUserHost roomC2 "h" = true ∧
    (roomC2.timerState.mode = "focus" →
      (handleTimerCompleted "h" (some roomC2)).suggestedNextMode =
        some (if Int.tmod roomC2.timerState.cycleCount 4 = 3
          then "longBreak" else "shortBreak") ∧
      (handleTimerCompleted "h" (some roomC2)).room.map
          (fun r => r.timerState.cycleCount) =
        some (roomC2.timerState.cycleCount + 1)) ∧
    (roomC2.timerState.mode ≠ "focus" →
      (handleTimerCompleted "h" (some roomC2)).suggestedNextMode = some "focus" ∧
      (handleTimerCompleted "h" (some roomC2)).room.map
          (fun r => r.timerState.cycleCount) = some roomC2.timerState.cycleCount) :=
  ⟨by decide, completed_suggestion_uses_preincrement_count "h" roomC2 (by decide)⟩

/-- A paused (not running) focus-mode room with 50 seconds stored, host `h`. -/
def roomC4 : Room := ⟨"h", ⟨"focus", some 50, false, none, some 0, 0⟩, none⟩

/-- C4 (code_bug): a host Pause call on a non-running timer with no
client-supplied timeRemaining persists and broadcasts a NON-numeric
timeRemaining (the code computes `Math.max(0, undefined)`, which is NaN,
modelled as `none`), violating the invariant that every operation leaves
timeRemaining a non-negative integer. -/
theorem pause_not_running_no_value_persists_nan :
    (handlePauseTimer 1000 "h" none (some roomC4)).room.map
        (fun r => r.timerState.timeRemaining) = some none ∧
    (handlePauseTimer 1000 "h" none (some roomC4)).broadcastEvent =
      some "timer-paused" := by
  decide

/-- The remaining time that the C3 claim wording prescribes for a Pause on a
running timer, written from the claim words for comparison with the code:
minimum of the client-suggested value (or the stored value only if NONE was
supplied) and the reconciled remaining time, floored at 0. -/
def c3ClaimPauseValue (now : Int) (suggested : Option Int) (stored startedAt : Int) :
    Int :=
  let reconciled := max 0 (stored - Int.fdiv (now - startedAt) 1000)
  max 0 (min (suggested.getD stored) reconciled)

/-- A running focus-mode room, 100 seconds stored, started at epoch 0,
host `h`. -/
def roomC3 : Room := ⟨"h", ⟨"focus", some 100, true, some 0, none, 0⟩, none⟩

/-- C3 (counterexample): for a Pause at `now` 30 seconds after start with
stored timeRemaining 100 and a client-suggested value of 0, the claim formula
yields 0 (minimum of the supplied 0 and the reconciled 70, floored at 0), but
the code persists 70: a supplied 0 is falsy in the `timeRemaining || stored`
expression and is replaced by the stored value. -/
theorem pause_suggested_zero_diverges_from_claim :
    (handlePauseTimer 30000 "h" (some 0) (some roomC3)).room.map
        (fun r => r.timerState.timeRemaining) = some (some 70) ∧
    c3ClaimPauseValue 30000 (some 0) 100 0 = 0 ∧ (70 : Int) ≠ 0 := by
  decide

/-- C3 (amended): for every host Pause call on a running timer (stored
timeRemaining `t`, startedAt `s`), the persisted timeRemaining is the minimum
of the effective suggestion and the reconciled remaining time
`max 0 (t - floor((now - s) / 1000))`, floored at 0 — where the effective
suggestion (`jsOrNum suggested t`) is the client value when one was supplied
and nonzero, and the stored value `t` otherwise (a supplied 0 is treated as
absent). -/
theorem pause_running_takes_conservative_minimum (now s t : Int) (userId : String)
    (suggested : Option Int) (room : Room)
    (hhost : isUserHost room userId = true)
    (hrun : room.timerState.isRunning = true)
    (hstart : room.timerState.startedAt = some s)
    (hstored : room.timerState.timeRemaining = some t) :
    (handlePauseTimer now userId suggested (some room)).room.map
        (fun r => r.timerState.timeRemaining) =
      some (some (max 0 (min (jsOrNum suggested t)
        (max 0 (t - Int.fdiv (now - s) 1000))))) := by
  simp [handlePauseTimer, calculateCurrentTimerState, hhost, hrun, hstart, hstored,
    jsOr_some, jsMin, jsMax, jsSub]

/-- C3 witness: the amended theorem at the spec scenario — stored 100,
startedAt 30 seconds before `now`, client-suggested 80 — yielding the
reconciled 70. -/
theorem pause_running_minimum_witness :
    isUserHost roomC3 "h" = true ∧
    roomC3.timerState.isRunning = true ∧
    roomC3.timerState.startedAt = some 0 ∧
    roomC3.timerState.timeRemaining = some 100 ∧
    (handlePauseTimer 30000 "h" (some 80) (some roomC3)).room.map
        (fun r => r.timerState.timeRemaining) =
      some (some (max 0 (min (jsOrNum (some 80) 100)
        (max 0 (100 - Int.fdiv (30000 - 0) 1000))))) ∧
    max 0 (min (jsOrNum (some 80) 100) (max 0 (100 - Int.fdiv (30000 - 0) 1000))) = 70 :=
  ⟨by decide, by decide, by decide, by decide,
    pause_running_takes_conservative_minimum 30000 0 100 "h" (some 80) roomC3
      (by decide) (by decide) (by decide) (by decide), by decide⟩

/-- A running shortBreak-mode room, 40 seconds stored, started at epoch 0,
host `h`. -/
def roomC10 : Room := ⟨"h", ⟨"shortBreak", some 40, true, some 0, none, 1⟩, none⟩

/-- C10 (confirmed): a client-suggested timeRemaining of 0 on a Pause of a
running timer behaves exactly as if no value had been supplied, and the
persisted timeRemaining is the minimum of the stored value and the reconciled
remaining time — never the forced 0. -/
theorem pause_suggested_zero_treated_as_absent (now s t : Int) (userId : String)
    (room : Room)
    (hhost : isUserHost room userId = true)
    (hrun : room.timerState.isRunning = true)
    (hstart : room.timerState.startedAt = some s)
    (hstored : room.timerState.timeRemaining = some t)
    (ht : 0 ≤ t) :
    handlePauseTimer now userId (some 0) (some room) =
      handlePauseTimer now userId none (some room) ∧
    (handlePauseTimer now userId (some 0) (some room)).room.map
        (fun r => r.timerState.timeRemaining) =
      some (some (min t (max 0 (t - Int.fdiv (now - s) 1000)))) := by
  constructor
  · simp [handlePauseTimer, hhost, hrun, hstart, hstored, jsOr]
  · simp only [handlePauseTimer, calculateCurrentTimerState, hhost, hrun, hstart,
      hstored, jsOr, jsMin, jsMax, jsSub, if_true]
    simp
    omega

/-- A paused focus-mode room with 120 seconds stored, host `h`. -/
def roomC5 : Room := ⟨"h", ⟨"focus", some 120, false, none, some 0, 1⟩, none⟩

/-- C5 (confirmed): whenever one of the five operations broadcasts (i.e.
succeeds), the persisted state satisfies the co-variance invariant: Start
leaves `(isRunning, startedAt) = (true, some now)`, and Pause, Reset, Change
Mode and Complete each leave `(false, none)` — so isRunning is true exactly
when startedAt is non-null. -/
theorem operations_keep_running_startedAt_consistent
    (now : Int) (userId mode : String) (tr : Option Int) (room : Room) :
    ((handleStartTimer now userId (some room)).broadcastEvent ≠ none →
      (handleStartTimer now userId (some room)).room.map
        (fun r => (r.timerState.isRunning, r.timerState.startedAt)) =
        some (true, some now)) ∧
    ((handlePauseTimer now userId tr (some room)).broadcastEvent ≠ none →
      (handlePauseTimer now userId tr (some room)).room.map
        (fun r => (r.timerState.isRunning, r.timerState.startedAt)) =
        some (false, none)) ∧
    ((handleResetTimer userId (some room)).broadcastEvent ≠ none →
      (handleResetTimer userId (some room)).room.map
        (fun r => (r.timerState.isRunning, r.timerState.startedAt)) =
        some (false, none)) ∧
    ((handleChangeTimerMode userId mode (some room)).broadcastEvent ≠ none →
      (handleChangeTimerMode userId mode (some room)).room.map
        (fun r => (r.timerState.isRunning, r.timerState.startedAt)) =
        some (false, none)) ∧
    ((handleTimerCompleted userId (some room)).broadcastEvent ≠ none →
      (handleTimerCompleted userId (some room)).room.map
        (fun r => (r.timerState.isRunning, r.timerState.startedAt)) =
        some (false, none)) := by
  refine ⟨?_, ?_, ?_, ?_, ?_⟩ <;> intro hb
  · by_cases hhost : isUserHost room userId
    · simp [handleStartTimer, hhost]
    · simp [handleStartTimer, hhost] at hb
  · by_cases hhost : isUserHost room userId
    · simp [handlePauseTimer, hhost]
    · simp [handlePauseTimer, hhost] at hb
  · by_cases hhost : isUserHost room userId
    · simp [handleResetTimer, hhost]
    · simp [handleResetTimer, hhost] at hb
  · by_cases hhost : isUserHost room userId
    · by_cases hmode : mode ∈ validModes
      · simp [handleChangeTimerMode, hhost, hmode]
      · simp [handleChangeTimerMode, hhost, hmode] at hb
    · simp [handleChangeTimerMode, hhost] at hb
  · by_cases hhost : isUserHost room userId
    · by_cases hfocus : room.timerState.mode = "focus" <;>
        simp [handleTimerCompleted, hhost, hfocus]
    · simp [handleTimerCompleted, hhost] at hb

/-- C5 witness: the invariant theorem exercised on `roomC5` for all five
operations, each with its success hypothesis discharged concretely. -/
theorem operations_consistency_witness :
    ((handleStartTimer 5000 "h" (some roomC5)).broadcastEvent ≠ none) ∧
    (handleStartTimer 5000 "h" (some roomC5)).room.map
      (fun r => (r.timerState.isRunning, r.timerState.startedAt)) =
      some (true, some 5000) ∧
    ((handlePauseTimer 5000 "h" (some 60) (some roomC5)).broadcastEvent ≠ none) ∧
    (handlePauseTimer 5000 "h" (some 60) (some roomC5)).room.map
      (fun r => (r.timerState.isRunning, r.timerState.startedAt)) =
      some (false, none) ∧
    ((handleResetTimer "h" (some roomC5)).broadcastEvent ≠ none) ∧
    (handleResetTimer "h" (some roomC5)).room.map
      (fun r => (r.timerState.isRunning, r.timerState.startedAt)) =
      some (false, none) ∧
    ((handleChangeTimerMode "h" "longBreak" (some roomC5)).broadcastEvent ≠ none) ∧
    (handleChangeTimerMode "h" "longBreak" (some roomC5)).room.map
      (fun r => (r.timerState.isRunning, r.timerState.startedAt)) =
      some (false, none) ∧
    ((handleTimerCompleted "h" (some roomC5)).broadcastEvent ≠ none) ∧
    (handleTimerCompleted "h" (some roomC5)).room.map
      (fun r => (r.timerState.isRunning, r.timerState.startedAt)) =
      some (false, none) :=
  ⟨by decide,
    (operations_keep_running_startedAt_consistent 5000 "h" "longBreak" (some 60)
      roomC5).1 (by decide),
    by decide,
    (operations_keep_running_startedAt_consistent 5000 "h" "longBreak" (some 60)
      roomC5).2.1 (by decide),
    by decide,
    (operations_keep_running_startedAt_consistent 5000 "h" "longBreak" (some 60)
      roomC5).2.2.1 (by decide),
    by decide,
    (operations_keep_running_startedAt_consistent 5000 "h" "longBreak" (some 60)
      roomC5).2.2.2.1 (by decide),
    by decide,
    (operations_keep_running_startedAt_consistent 5000 "h" "longBreak" (some 60)
      roomC5).2.2.2.2 (by decide)⟩

/-- A running focus-mode room whose host is `h`, used for the authorization
claim. -/
def roomC6 : Room := ⟨"h", ⟨"focus", some 30, true, some 0, none, 0⟩, none⟩

/-- C6 (confirmed): any of the five operations invoked by a non-host
identity returns the room entirely unchanged, broadcasts nothing, and emits
the authorization error to the requester only. -/
theorem nonhost_leaves_state_unchanged
    (now : Int) (userId mode : String) (tr : Option Int) (room : Room)
    (hhost : isUserHost room userId = false) :
    handleStartTimer now userId (some room) =
      ⟨some room, some "Only host can control timer", none, none⟩ ∧
    handlePauseTimer now userId tr (some room) =
      ⟨some room, some "Only host can control timer", none, none⟩ ∧
    handleResetTimer userId (some room) =
      ⟨some room, some "Only host can control timer", none, none⟩ ∧
    handleChangeTimerMode userId mode (some room) =
      ⟨some room, some "Only host can control timer", none, none⟩ ∧
    handleTimerCompleted userId (some room) =
      ⟨some room, some "Only host can control timer", none, none⟩ := by
  simp [handleStartTimer, handlePauseTimer, handleResetTimer,
    handleChangeTimerMode, handleTimerCompleted, hhost]

/-- C6 witness: a non-host requester `guest` on `roomC6` (host `h`), all five
operations. -/
theorem nonhost_unchanged_witness :
    isUserHost roomC6 "guest" = false ∧
    (handleStartTimer 7000 "guest" (some roomC6) =
      ⟨some roomC6, some "Only host can control timer", none, none⟩ ∧
    handlePauseTimer 7000 "guest" (some 10) (some roomC6) =
      ⟨some roomC6, some "Only host can control timer", none, none⟩ ∧
    handleResetTimer "guest" (some roomC6) =
      ⟨some roomC6, some "Only host can control timer", none, none⟩ ∧
    handleChangeTimerMode "guest" "shortBreak" (some roomC6) =
      ⟨some roomC6, some "Only host can control timer", none, none⟩ ∧
    handleTimerCompleted "guest" (some roomC6) =
      ⟨some roomC6, some "Only host can control timer", none, none⟩) :=
  ⟨by decide,
    nonhost_leaves_state_unchanged 7000 "guest" "shortBreak" (some 10) roomC6
      (by decide)⟩

/-- A paused longBreak-mode room with cycleCount 3, host `h`, with custom
duration settings. -/
def roomC7 : Room :=
  ⟨"h", ⟨"longBreak", some 900, false, none, some 100, 3⟩,
    some ⟨some 1800, some 240, some 600⟩⟩

/-- C7 (confirmed): a host Change Mode call with a mode outside
focus/shortBreak/longBreak returns the room entirely unchanged (every field of
the timer state included), broadcasts nothing, and emits the invalid-mode
error to the requester only. -/
theorem changeMode_invalid_mode_rejected (userId mode : String) (room : Room)
    (hhost : isUserHost room userId = true)
    (hmode : mode ∉ validModes) :
    handleChangeTimerMode userId mode (some room) =
      ⟨some room, some "Invalid timer mode", none, none⟩ := by
  simp [handleChangeTimerMode, hhost, hmode]

/-- C7 witness: the host of `roomC7` requests the invalid mode `megaBreak`. -/
theorem changeMode_invalid_mode_witness :
    isUserHost roomC7 "h" = true ∧ "megaBreak" ∉ validModes ∧
    handleChangeTimerMode "h" "megaBreak" (some roomC7) =
      ⟨some roomC7, some "Invalid timer mode", none, none⟩ :=
  ⟨by decide, by decide,
    changeMode_invalid_mode_rejected "h" "megaBreak" roomC7 (by decide) (by decide)⟩

/-- An ALREADY-RUNNING shortBreak room, startedAt 1000, 77 seconds stored,
host `h`. -/
def roomC8 : Room := ⟨"h", ⟨"shortBreak", some 77, true, some 1000, some 500, 2⟩, none⟩

/-- C8 (confirmed): a host Start call sets `isRunning = true` and
`startedAt = now` and changes nothing else — `timeRemaining`, `mode`,
`pausedAt` and `cycleCount` are carried over verbatim; in particular it holds
with no hypothesis on the prior running state, so starting an already-running
timer simply rebases `startedAt`, discarding the elapsed time. -/
theorem start_sets_running_and_rebases (now : Int) (userId : String) (room : Room)
    (hhost : isUserHost room userId = true) :
    handleStartTimer now userId (some room) =
      ⟨some { room with timerState :=
          { room.timerState with isRunning := true, startedAt := some now } },
        none, some "timer-started", none⟩ := by
  simp [handleStartTimer, hhost]

/-- C8 witness: Start on the already-running `roomC8` (startedAt 1000) at
`now = 9000` rebases startedAt to 9000 and keeps timeRemaining at 77. -/
theorem start_rebases_witness :
    isUserHost roomC8 "h" = true ∧
    handleStartTimer 9000 "h" (some roomC8) =
      ⟨some { roomC8 with timerState :=
          { roomC8.timerState with isRunning := true, startedAt := some 9000 } },
        none, some "timer-started", none⟩ ∧
    (handleStartTimer 9000 "h" (some roomC8)).room.map
      (fun r => r.timerState.timeRemaining) = some (some 77) :=
  ⟨by decide, start_sets_running_and_rebases 9000 "h" roomC8 (by decide), by decide⟩

/-- A running focus-mode timer state, 100 seconds stored, started at epoch. -/
def tsC9 : TimerState := ⟨"focus", some 100, true, some 0, none, 0⟩

/-- A stopped shortBreak timer state. -/
def tsC9stopped : TimerState := ⟨"shortBreak", some 50, false, none, some 3, 1⟩

/-- C9 (counterexample): the reconciliation function is NOT idempotent for a
fixed `now`: it keeps `isRunning` and `startedAt` in the returned state, so a
second application at the same instant subtracts the elapsed time again
(100 stored, 30 s elapsed: one application gives 70, two give 40). -/
theorem reconcile_not_idempotent :
    calculateCurrentTimerState 30000 (calculateCurrentTimerState 30000 tsC9) ≠
      calculateCurrentTimerState 30000 tsC9 := by
  decide

/-- C9 (amended): for a running state with `startedAt = some s` and numeric
`timeRemaining = some t` observed at `now ≥ s`, reconciliation returns the
same state with timeRemaining replaced by
`max 0 (t - floor((now - s) / 1000))`, which is never negative; for a
non-running state it returns the state unchanged.  (The idempotence clause of
the claim is dropped: it fails, see the counterexample.) -/
theorem reconcile_formula (now s t : Int) (ts : TimerState) :
    (ts.isRunning = true → ts.startedAt = some s → ts.timeRemaining = some t →
      s ≤ now →
      calculateCurrentTimerState now ts =
        { ts with timeRemaining := some (max 0 (t - Int.fdiv (now - s) 1000)) } ∧
      0 ≤ max 0 (t - Int.fdiv (now - s) 1000)) ∧
    (ts.isRunning = false → calculateCurrentTimerState now ts = ts) := by
  constructor
  · intro hrun hstart hstored hnow
    refine ⟨?_, le_max_left 0 _⟩
    simp [calculateCurrentTimerState, hrun, hstart, hstored, jsMax, jsSub]
  · intro hrun
    simp [calculateCurrentTimerState, hrun]

/-- C9 witness: the amended theorem at `tsC9` (running, 30 s elapsed, result
70) and at `tsC9stopped` (not running, returned unchanged). -/
theorem reconcile_formula_witness :
    (tsC9.isRunning = true ∧ tsC9.startedAt = some 0 ∧
      tsC9.timeRemaining = some 100 ∧ (0 : Int) ≤ 30000 ∧
      calculateCurrentTimerState 30000 tsC9 =
        { tsC9 with timeRemaining := some (max 0 (100 - Int.fdiv (30000 - 0) 1000)) } ∧
      0 ≤ max 0 ((100 : Int) - Int.fdiv (30000 - 0) 1000)) ∧
    (tsC9stopped.isRunning = false ∧
      calculateCurrentTimerState 30000 tsC9stopped = tsC9stopped) :=
  ⟨⟨by decide, by decide, by decide, by decide,
    ((reconcile_formula 30000 0 100 tsC9).1 (by decide) (by decide) (by decide)
      (by decide)).1,
    ((reconcile_formula 30000 0 100 tsC9).1 (by decide) (by decide) (by decide)
      (by decide)).2⟩,
    ⟨by decide, (reconcile_formula 30000 0 50 tsC9stopped).2 (by decide)⟩⟩

/-- C10 witness: pausing the running `roomC10` (stored 40, started at epoch)
at `now = 10000` with a client-suggested 0 equals pausing with no suggestion,
and persists `min 40 (max 0 (40 - 10)) = 30`, not 0. -/
theorem pause_zero_treated_as_absent_witness :
    isUserHost roomC10 "h" = true ∧
    roomC10.timerState.isRunning = true ∧
    roomC10.timerState.startedAt = some 0 ∧
    roomC10.timerState.timeRemaining = some 40 ∧
    (0 : Int) ≤ 40 ∧
    (handlePauseTimer 10000 "h" (some 0) (some roomC10) =
      handlePauseTimer 10000 "h" none (some roomC10) ∧
    (handlePauseTimer 10000 "h" (some 0) (some roomC10)).room.map
        (fun r => r.timerState.timeRemaining) =
      some (some (min 40 (max 0 (40 - Int.fdiv (10000 - 0) 1000))))) :=
  ⟨by decide, by decide, by decide, by decide, by decide,
    pause_suggested_zero_treated_as_absent 10000 0 40 "h" roomC10
      (by decide) (by decide) (by decide) (by decide) (by decide)⟩
